import Mathlib

set_option maxRecDepth 100000

/-!
Verification of the tile-gen vector-tile server core.

The Python sources under src/tile_gen are shallowly embedded below:
pure functions become Lean functions, Python floats are modelled as
rationals, fallible code returns Except, and the external libraries
(psycopg2, shapely, gzip, the filesystem) are modelled as explicit
parameters or as an explicit state.
-/

namespace TileGen

/-- Python list indexing `l[i]` for a nonnegative index: `IndexError`
when the index is out of range (src/tile_gen/vectiles/server.py,
`layer.queries[coord.zoom]`). -/
def pyIndex (l : List α) (i : Nat) : Except String α :=
  match l[i]? with
  | some x => Except.ok x
  | none => Except.error "IndexError: list index out of range"

/-! ### Per-zoom tolerance table

src/tile_gen/vectiles/server.py line 24:
`tolerances = [6378137 * 2 * pi / (2 ** (zoom + 8)) for zoom in range(22)]`.
Python floats are modelled as rationals; `pi` (a float constant) is kept
as a parameter `piV`. -/

/-- The per-zoom tolerance table of server.py: one entry per zoom in
`range(22)`. -/
def tolerances (piV : ℚ) : List ℚ :=
  (List.range 22).map (fun zoom => 6378137 * 2 * piV / (2 ^ (zoom + 8)))

/-- `Provider.render_tile`, tolerance computation
(src/tile_gen/vectiles/server.py line 356):
`tolerance = layer.simplify * tolerances[coord.zoom]`. -/
def render_tile_tolerance (piV simplify : ℚ) (zoom : Nat) : Except String ℚ :=
  (pyIndex (tolerances piV) zoom).map (fun t => simplify * t)

/-! ### Per-zoom query selection

src/tile_gen/vectiles/server.py, `Provider.render_tile` lines 352-364:
`query = layer.queries[coord.zoom]` followed by
`if not query: return EmptyResponse(bounds)`.  A `queries` entry is
`Option String`; Python truthiness makes both `None` and the empty
string select the empty response. -/

/-- Outcome of the query-selection step of `Provider.render_tile`:
either an empty response (no database access) or a `Response` built
from the selected query text. -/
inductive QuerySelection : Type
  | empty : QuerySelection
  | response (query : String) : QuerySelection
  deriving DecidableEq, Repr

/-- Query selection in `Provider.render_tile`
(src/tile_gen/vectiles/server.py lines 357-364): index the per-layer
query list at the tile zoom, and return the empty response when the
entry is falsy (`None` or `""`). -/
def render_tile_select (queries : List (Option String)) (zoom : Nat) :
    Except String QuerySelection := do
  let q ← pyIndex queries zoom
  match q with
  | none => pure QuerySelection.empty
  | some s => if s = "" then pure QuerySelection.empty else pure (QuerySelection.response s)

/-! ### SQL composition (`build_query`)

src/tile_gen/vectiles/server.py lines 82-171.  Python floats are
modelled as rationals; `%.12f` formatting is `fmt12` below (fixed 12
fractional digits; ties round half-up where C rounds half-even, a
difference no claim exercises).  `subcolumns` (a Python set) is
modelled as a list in iteration order. -/

/-- Build a rational from an integer numerator and denominator. -/
def mkRatZ (n d : ℤ) : ℚ :=
  if d < 0 then mkRat (-n) (-d).toNat else mkRat n d.toNat

/-! Rational arithmetic for the float model, written as explicit
executable operations on numerator and denominator (the ambient `ℚ`
operations are irreducible and would block evaluation of the composed
SQL at concrete inputs). -/

/-- Python `a + b` on floats, as exact rational addition. -/
def pyAdd (a b : ℚ) : ℚ := mkRatZ (a.num * b.den + b.num * a.den) (a.den * b.den)

/-- Python `a - b` on floats, as exact rational subtraction. -/
def pySub (a b : ℚ) : ℚ := mkRatZ (a.num * b.den - b.num * a.den) (a.den * b.den)

/-- Python `a * b` on floats, as exact rational multiplication. -/
def pyMul (a b : ℚ) : ℚ := mkRatZ (a.num * b.num) (a.den * b.den)

/-- Python `a / b` on floats, as exact rational division. -/
def pyDiv (a b : ℚ) : ℚ := mkRatZ (a.num * b.den) (a.den * b.num)

/-- Python unary `-a`. -/
def pyNeg (a : ℚ) : ℚ := mkRatZ (-a.num) a.den

/-- Left-pad a digit string with zeros to width `n`. -/
def padZeros (n : Nat) (s : String) : String :=
  String.mk (List.replicate (n - s.length) '0') ++ s

/-- Python `'%.12f' % q`: sign, integer part, and exactly 12 fractional
digits of the rounding of `q` to 12 decimal places (ties round half-up
where C rounds half-even, a difference no claim exercises).  The
rounding `⌊q*10^12 + 1/2⌋` is computed on numerator and denominator. -/
def fmt12 (q : ℚ) : String :=
  let scaled : ℤ := (2 * q.num * 1000000000000 + (q.den : ℤ)).fdiv (2 * (q.den : ℤ))
  let a := scaled.natAbs
  (if scaled < 0 then "-" else "") ++ toString (a / 1000000000000) ++ "." ++
    padZeros 12 (toString (a % 1000000000000))

/-- Projected bounds rectangle; the source passes it as the 4-tuple
`(xmin, ymin, xmax, ymax)`. -/
structure Bounds where
  xmin : ℚ
  ymin : ℚ
  xmax : ℚ
  ymax : ℚ
  deriving DecidableEq

/-- The padded bbox expression of `build_query`
(src/tile_gen/vectiles/server.py lines 87-88). -/
def makeBbox (srid : ℤ) (b : Bounds) (padding : ℚ) : String :=
  "ST_SetSRID(ST_MakeBox2D(ST_MakePoint(" ++ fmt12 (pySub b.xmin padding) ++ ", " ++
    fmt12 (pySub b.ymin padding) ++ "), ST_MakePoint(" ++ fmt12 (pyAdd b.xmax padding) ++ ", " ++
    fmt12 (pyAdd b.ymax padding) ++ ")), " ++ toString srid ++ ")"

/-- The enlarged simplification bbox (server.py lines 115-124; note the
source writes `ST_SetSrid` in this branch). -/
def makeSimplificationBbox (srid : ℤ) (b : Bounds) (spad : ℚ) : String :=
  "ST_SetSrid(ST_MakeBox2D(ST_MakePoint(" ++ fmt12 (pySub b.xmin spad) ++ ", " ++
    fmt12 (pySub b.ymin spad) ++ "), ST_MakePoint(" ++ fmt12 (pyAdd b.xmax spad) ++ ", " ++
    fmt12 (pyAdd b.ymax spad) ++ ")), " ++ toString srid ++ ")"

/-- The geometry expression chain of `build_query` (server.py lines
89-151): simplify/clip order per `simplify_before_intersect`, then
optional reprojection and scaling.  The `assert is_clipped` of the
simplify-before-intersect branch becomes an error value; Python
truthiness makes `scale=None` and `scale=0` both skip `ST_TransScale`. -/
def build_geom (srid : ℤ) (b : Bounds) (tolerance : Option ℚ) (is_geo is_clipped : Bool)
    (padding : ℚ) (scale : Option ℚ) (simplify_before_intersect : Bool) :
    Except String String :=
  let bbox := makeBbox srid b padding
  let step1 : Except String String :=
    if simplify_before_intersect then
      -- Simplify, then cut tile.
      let g :=
        match tolerance with
        | some t =>
          let spad := pyAdd padding (pyMul (pySub b.ymax b.ymin) (mkRat 1 10))
          "ST_MakeValid(ST_SimplifyPreserveTopology(ST_Intersection(q.__geometry__, " ++
            makeSimplificationBbox srid b spad ++ "), " ++ fmt12 t ++ "))"
        | none => "q.__geometry__"
      if is_clipped then
        Except.ok ("ST_Intersection(" ++ g ++ ", " ++ bbox ++ ")")
      else
        Except.error
          "AssertionError: If simplify_before_intersect=True, is_clipped should be True as well"
    else
      -- Cut tile, then simplify.
      let g := if is_clipped then "ST_Intersection(q.__geometry__, " ++ bbox ++ ")"
               else "q.__geometry__"
      Except.ok (match tolerance with
        | some t => "ST_SimplifyPreserveTopology(" ++ g ++ ", " ++ fmt12 t ++ ")"
        | none => g)
  step1.map (fun g =>
    let g := if is_geo then "ST_Transform(" ++ g ++ ", 4326)" else g
    match scale with
    | some s =>
      if s = 0 then g
      else "ST_TransScale(" ++ g ++ ", " ++ fmt12 (pyNeg b.xmin) ++ ", " ++ fmt12 (pyNeg b.ymin) ++
        ", " ++ fmt12 (pyDiv s (pySub b.xmax b.xmin)) ++ ", " ++ fmt12 (pyDiv s (pySub b.ymax b.ymin)) ++ ")"
    | none => g)

/-- One pass of Python `str.replace` on character lists: scan left to
right, replacing each non-overlapping occurrence of `pat`.  The fuel
argument (instantiated with the list length) makes the recursion
structural so that concrete instances evaluate. -/
def replaceFuel (pat rep : List Char) : Nat → List Char → List Char
  | _, [] => []
  | 0, l => l
  | fuel + 1, c :: rest =>
    if pat.isPrefixOf (c :: rest) ∧ pat ≠ [] then
      rep ++ replaceFuel pat rep fuel (List.drop (pat.length - 1) rest)
    else c :: replaceFuel pat rep fuel rest

/-- Python `s.replace(pat, rep)` (all occurrences, left to right,
non-overlapping; the empty pattern, which the source never passes, is
left unreplaced). -/
def pyReplace (s pat rep : String) : String :=
  String.mk (replaceFuel pat.data rep.data s.data.length s.data)

/-- The synthesized id column appended when the sub-query lacks
`__id__` (server.py line 160). -/
def id_synth_column : String :=
  "Substr(MD5(ST_AsBinary(q.__geometry__)), 1, 10) AS __id__"

/-- The projected column list of `build_query` (server.py lines
154-160): every sub-query column except `__geometry__` is passed
through as `q."<name>"`, and the synthesized id column is appended when
`__id__` is absent. -/
def query_columns (subcolumns : List String) : List String :=
  let columns := (subcolumns.filter (fun c => c ≠ "__geometry__")).map
    (fun c => "q.\"" ++ c ++ "\"")
  if "__id__" ∉ subcolumns then columns ++ [id_synth_column] else columns

/-- Python `', '.join(columns)`. -/
def join (sep : String) : List String → String
  | [] => ""
  | [x] => x
  | x :: y :: rest => x ++ sep ++ join sep (y :: rest)

/-- Everything of the SQL template of server.py lines 164-168 up to and
including `) AS q` (whitespace reproduced from the triple-quoted
source literal). -/
def sqlHead (columns geom subquery : String) : String :=
  "SELECT " ++ columns ++ ",\n                     ST_AsBinary(" ++ geom ++
    ") AS __geometry__\n              FROM (\n                " ++ subquery ++
    "\n                ) AS q"

/-- The outer WHERE clause of the SQL template (server.py lines
169-170). -/
def sqlTail (bbox : String) : String :=
  "\n              WHERE ST_IsValid(q.__geometry__)\n                AND ST_Intersects(q.__geometry__, " ++
    bbox ++ ")"

/-- `build_query` (src/tile_gen/vectiles/server.py lines 82-171).  The
`raise Exception` for a missing `__geometry__` column becomes an error
value. -/
def build_query (srid : ℤ) (subquery : String) (subcolumns : List String) (b : Bounds)
    (tolerance : Option ℚ) (is_geo is_clipped : Bool) (padding : ℚ) (scale : Option ℚ)
    (simplify_before_intersect : Bool) : Except String String :=
  match build_geom srid b tolerance is_geo is_clipped padding scale
      simplify_before_intersect with
  | Except.error e => Except.error e
  | Except.ok geom =>
    if "__geometry__" ∉ subcolumns then
      Except.error "Exception: There is supposed to be a __geometry__ column."
    else
      Except.ok (sqlHead (join ", " (query_columns subcolumns)) geom
        (pyReplace subquery "!bbox!" (makeBbox srid b padding)) ++
        sqlTail (makeBbox srid b padding))

/-- `s` ends with `t` (the claim language "the SQL string ends with"). -/
def str_ends_with (s t : String) : Prop :=
  ∃ a, s = a ++ t

/-- `t` occurs somewhere in `s` (the claim language "contains"). -/
def str_contains (s t : String) : Prop :=
  ∃ a c, s = a ++ t ++ c

/-- Extract the success value of an `Except`, with a default. -/
def okD (e : Except ε α) (d : α) : α :=
  match e with
  | Except.ok v => v
  | Except.error _ => d

end TileGen

/-- C10: the tolerance table has an entry exactly for zooms 0..21, so the
scalar tolerance is `simplify * (2*pi*6378137 / 2^(zoom+8))` for zoom ≤ 21
and an IndexError for zoom ≥ 22. -/
theorem C10_tolerance_table (piV simplify : ℚ) (zoom : Nat) :
    (zoom ≤ 21 →
      TileGen.render_tile_tolerance piV simplify zoom =
        Except.ok (simplify * (2 * piV * 6378137 / 2 ^ (zoom + 8)))) ∧
    (22 ≤ zoom →
      TileGen.render_tile_tolerance piV simplify zoom =
        Except.error "IndexError: list index out of range") := by
  constructor
  · intro h
    have hz : zoom < 22 := by omega
    simp only [TileGen.render_tile_tolerance, TileGen.tolerances, TileGen.pyIndex,
      List.getElem?_map, List.getElem?_range hz, Option.map_some', Except.map]
    congr 1
    ring
  · intro h
    have hz : (List.range 22)[zoom]? = none := by
      rw [List.getElem?_eq_none_iff]
      simpa using h
    simp [TileGen.render_tile_tolerance, TileGen.tolerances, TileGen.pyIndex,
      List.getElem?_map, hz, Except.map]

/-- Witness for C10 at zoom 3 (in range) and zoom 25 (out of range). -/
theorem C10_tolerance_table_witness :
    TileGen.render_tile_tolerance 3 2 3 = Except.ok (2 * (2 * 3 * 6378137 / 2 ^ 11)) ∧
    TileGen.render_tile_tolerance 3 2 25 =
      Except.error "IndexError: list index out of range" := by
  exact ⟨(C10_tolerance_table 3 2 3).1 (by norm_num),
    (C10_tolerance_table 3 2 25).2 (by norm_num)⟩

/-- C1 (code bug evaluation): with a single-entry query list, selecting the
query for zoom 1 raises IndexError instead of reusing the last entry as the
provider docstring promises; and a null entry at zoom 0 yields the empty
response. -/
theorem C1_query_selection_bug :
    TileGen.render_tile_select [some "SELECT 1 AS __geometry__"] 1 =
      Except.error "IndexError: list index out of range" ∧
    TileGen.render_tile_select [none] 0 = Except.ok TileGen.QuerySelection.empty := by
  constructor <;> rfl

namespace TileGen

/-- Joining a list with a final element `x` yields a string ending in `x`. -/
theorem join_concat (sep x : String) : ∀ l : List String, ∃ a, join sep (l ++ [x]) = a ++ x
  | [] => ⟨"", by simp [join]⟩
  | [h] => ⟨h ++ sep, by simp [join, String.append_assoc]⟩
  | h :: h' :: t => by
    obtain ⟨a, ha⟩ := join_concat sep x (h' :: t)
    refine ⟨h ++ sep ++ a, ?_⟩
    have hu : join sep ((h :: h' :: t) ++ [x]) = h ++ sep ++ join sep ((h' :: t) ++ [x]) := rfl
    rw [hu, ha]
    simp [String.append_assoc]

/-- The SQL head splits around the sub-query. -/
theorem sqlHead_decomp (c g sq : String) : ∃ p s, sqlHead c g sq = p ++ sq ++ s :=
  ⟨"SELECT " ++ c ++ ",\n                     ST_AsBinary(" ++ g ++
      ") AS __geometry__\n              FROM (\n                ",
    "\n                ) AS q", by unfold sqlHead; simp [String.append_assoc]⟩

/-- Successful runs of `build_query` produce the SQL template applied to
the joined columns, some geometry expression, and the substituted
sub-query. -/
theorem build_query_ok_shape {srid : ℤ} {subquery : String} {subcolumns : List String}
    {b : Bounds} {tolerance : Option ℚ} {is_geo is_clipped : Bool} {padding : ℚ}
    {scale : Option ℚ} {sbi : Bool} {r : String}
    (h : build_query srid subquery subcolumns b tolerance is_geo is_clipped padding scale
      sbi = Except.ok r) :
    ∃ g, r = sqlHead (join ", " (query_columns subcolumns)) g
      (pyReplace subquery "!bbox!" (makeBbox srid b padding)) ++
      sqlTail (makeBbox srid b padding) := by
  unfold build_query at h
  cases hg : build_geom srid b tolerance is_geo is_clipped padding scale sbi with
  | error e => rw [hg] at h; simp at h
  | ok g =>
    rw [hg] at h
    by_cases hm : "__geometry__" ∈ subcolumns
    · simp only [hm, not_true_eq_false, if_neg, if_false, Except.ok.injEq] at h
      exact ⟨g, h.symm⟩
    · simp [hm] at h

/-- A string whose final segment differs from `t` does not end with `t`. -/
theorem not_str_ends_with (s t : String)
    (h : s.data.drop (s.data.length - t.data.length) ≠ t.data) :
    ¬ str_ends_with s t := by
  rintro ⟨a, rfl⟩
  apply h
  rw [String.data_append, List.length_append]
  have hl : a.data.length + t.data.length - t.data.length = a.data.length := by omega
  rw [hl, List.drop_left]

/-- `str_contains` transfers to an infix relation on character data. -/
theorem data_of_str_contains {s t : String} (h : str_contains s t) :
    t.data <:+: s.data := by
  obtain ⟨a, c, rfl⟩ := h
  exact ⟨a.data, c.data, by simp [String.data_append]⟩

end TileGen

/-- C2 (counterexample): for a sub-query without `!bbox!`, the composed
SQL does not end with `WHERE ST_Intersects(q.__geometry__, <bbox>)` —
the outer clause is `WHERE ST_IsValid(...) AND ST_Intersects(...)` and
is never omitted — so the claimed equivalence fails. -/
theorem C2_outer_where_counterexample :
    ¬ (TileGen.str_ends_with
        (TileGen.okD
          (TileGen.build_query 900913 "SELECT gid AS __id__, geom AS __geometry__ FROM roads"
            ["__id__", "__geometry__"] ⟨0, 0, 1, 1⟩ none true true 0 none false) "")
        ("WHERE ST_Intersects(q.__geometry__, " ++ TileGen.makeBbox 900913 ⟨0, 0, 1, 1⟩ 0 ++ ")") ↔
      ¬ TileGen.str_contains "SELECT gid AS __id__, geom AS __geometry__ FROM roads" "!bbox!") := by
  intro hiff
  have hnc : ¬ TileGen.str_contains "SELECT gid AS __id__, geom AS __geometry__ FROM roads"
      "!bbox!" := fun hc => absurd (TileGen.data_of_str_contains hc) (by decide)
  exact TileGen.not_str_ends_with _ _ (by decide) (hiff.mpr hnc)

/-- C2 (amended): every successful `build_query` result ends with the
outer clause `WHERE ST_IsValid(q.__geometry__) AND
ST_Intersects(q.__geometry__, <bbox>)`, whether or not the sub-query
contains `!bbox!`, and the sub-query is embedded with every `!bbox!`
textually substituted by the padded bbox expression. -/
theorem C2_outer_where_always (srid : ℤ) (subquery : String) (subcolumns : List String)
    (b : TileGen.Bounds) (tolerance : Option ℚ) (is_geo is_clipped : Bool) (padding : ℚ)
    (scale : Option ℚ) (sbi : Bool) (r : String)
    (h : TileGen.build_query srid subquery subcolumns b tolerance is_geo is_clipped padding
      scale sbi = Except.ok r) :
    TileGen.str_ends_with r (TileGen.sqlTail (TileGen.makeBbox srid b padding)) ∧
    TileGen.str_contains r (TileGen.pyReplace subquery "!bbox!" (TileGen.makeBbox srid b padding)) := by
  obtain ⟨g, rfl⟩ := TileGen.build_query_ok_shape h
  constructor
  · exact ⟨_, rfl⟩
  · obtain ⟨p, s, hd⟩ := TileGen.sqlHead_decomp (TileGen.join ", "
      (TileGen.query_columns subcolumns)) g
      (TileGen.pyReplace subquery "!bbox!" (TileGen.makeBbox srid b padding))
    rw [hd]
    exact ⟨p, s ++ TileGen.sqlTail (TileGen.makeBbox srid b padding),
      by simp [String.append_assoc]⟩

/-- Witness for C2 (amended) at a concrete query. -/
theorem C2_outer_where_always_witness :
    TileGen.str_ends_with
      (TileGen.okD
        (TileGen.build_query 900913 "SELECT geom AS __geometry__ FROM a WHERE geom && !bbox!"
          ["__geometry__"] ⟨0, 0, 1, 1⟩ (some 2) false true 0 none false) "")
      (TileGen.sqlTail (TileGen.makeBbox 900913 ⟨0, 0, 1, 1⟩ 0)) ∧
    TileGen.str_contains
      (TileGen.okD
        (TileGen.build_query 900913 "SELECT geom AS __geometry__ FROM a WHERE geom && !bbox!"
          ["__geometry__"] ⟨0, 0, 1, 1⟩ (some 2) false true 0 none false) "")
      (TileGen.pyReplace "SELECT geom AS __geometry__ FROM a WHERE geom && !bbox!" "!bbox!"
        (TileGen.makeBbox 900913 ⟨0, 0, 1, 1⟩ 0)) :=
  C2_outer_where_always 900913 "SELECT geom AS __geometry__ FROM a WHERE geom && !bbox!"
    ["__geometry__"] ⟨0, 0, 1, 1⟩ (some 2) false true 0 none false _ (by rfl)

/-- C3: when the sub-query lacks `__id__`, `build_query` adds the column
`Substr(MD5(ST_AsBinary(q.__geometry__)), 1, 10) AS __id__` to the
emitted SQL; when `__id__` is present, it is passed through as
`q."__id__"` and no synthesized id column is added. -/
theorem C3_id_synthesis (srid : ℤ) (subquery : String) (subcolumns : List String)
    (b : TileGen.Bounds) (tolerance : Option ℚ) (is_geo is_clipped : Bool) (padding : ℚ)
    (scale : Option ℚ) (sbi : Bool) (r : String)
    (h : TileGen.build_query srid subquery subcolumns b tolerance is_geo is_clipped padding
      scale sbi = Except.ok r) :
    ("__id__" ∉ subcolumns →
      TileGen.id_synth_column ∈ TileGen.query_columns subcolumns ∧
      TileGen.str_contains r TileGen.id_synth_column) ∧
    ("__id__" ∈ subcolumns →
      TileGen.id_synth_column ∉ TileGen.query_columns subcolumns ∧
      ("q.\"__id__\"" : String) ∈ TileGen.query_columns subcolumns) := by
  obtain ⟨g, rfl⟩ := TileGen.build_query_ok_shape h
  constructor
  · intro hid
    have hq : TileGen.query_columns subcolumns =
        ((subcolumns.filter (fun c => c ≠ "__geometry__")).map
          (fun c => "q.\"" ++ c ++ "\"")) ++ [TileGen.id_synth_column] := by
      unfold TileGen.query_columns
      simp [hid]
    refine ⟨by rw [hq]; simp, ?_⟩
    obtain ⟨a, ha⟩ := TileGen.join_concat ", " TileGen.id_synth_column
      ((subcolumns.filter (fun c => c ≠ "__geometry__")).map (fun c => "q.\"" ++ c ++ "\""))
    rw [hq, ha]
    unfold TileGen.sqlHead
    exact ⟨"SELECT " ++ a,
      ",\n                     ST_AsBinary(" ++ g ++
        ") AS __geometry__\n              FROM (\n                " ++
        TileGen.pyReplace subquery "!bbox!" (TileGen.makeBbox srid b padding) ++
        "\n                ) AS q" ++ TileGen.sqlTail (TileGen.makeBbox srid b padding),
      by simp [String.append_assoc]⟩
  · intro hid
    have hq : TileGen.query_columns subcolumns =
        (subcolumns.filter (fun c => c ≠ "__geometry__")).map
          (fun c => "q.\"" ++ c ++ "\"") := by
      unfold TileGen.query_columns
      simp [hid]
    constructor
    · rw [hq]
      intro hmem
      obtain ⟨c, _, heq⟩ := List.mem_map.mp hmem
      have hd : ("q.\"" ++ c ++ "\"").data.head? = some 'q' := by
        rw [String.data_append, String.data_append,
          show ("q.\"" : String).data = ['q', '.', '"'] from rfl]
        rfl
      rw [heq] at hd
      exact absurd hd (by decide)
    · rw [hq]
      refine List.mem_map_of_mem _ (List.mem_filter.mpr ⟨hid, by decide⟩)

/-- Witness for C3: a sub-query without `__id__` gets the synthesized id
column, and one with `__id__` passes it through. -/
theorem C3_id_synthesis_witness :
    (TileGen.id_synth_column ∈ TileGen.query_columns ["__geometry__", "name"] ∧
      TileGen.str_contains
        (TileGen.okD
          (TileGen.build_query 900913 "SELECT geom AS __geometry__, name FROM a"
            ["__geometry__", "name"] ⟨0, 0, 1, 1⟩ none true true 0 none false) "")
        TileGen.id_synth_column) ∧
    (TileGen.id_synth_column ∉ TileGen.query_columns ["__id__", "__geometry__"] ∧
      ("q.\"__id__\"" : String) ∈ TileGen.query_columns ["__id__", "__geometry__"]) :=
  ⟨(C3_id_synthesis 900913 "SELECT geom AS __geometry__, name FROM a"
      ["__geometry__", "name"] ⟨0, 0, 1, 1⟩ none true true 0 none false _ (by rfl)).1
      (by decide),
    (C3_id_synthesis 900913 "SELECT gid AS __id__, geom AS __geometry__ FROM a"
      ["__id__", "__geometry__"] ⟨0, 0, 1, 1⟩ none true true 0 none false _ (by rfl)).2
      (by decide)⟩

namespace TileGen

/-- The `simplify` configuration value of a layer: either a scalar
tolerance-in-pixels or (per the spec) a zoom-to-tolerance mapping. -/
inductive SimplifyArg : Type
  | scalar (s : ℚ) : SimplifyArg
  | mapping (m : List (Nat × ℚ)) : SimplifyArg

/-- Python `float(x)` as run by `Layer.__init__`
(src/tile_gen/layer.py line 102, `self.simplify = float(simplify)`):
numbers convert, a dict raises TypeError. -/
def pyFloat : SimplifyArg → Except String ℚ
  | SimplifyArg.scalar s => Except.ok s
  | SimplifyArg.mapping _ =>
    Except.error "TypeError: float() argument must be a string or a number"

/-- The simplification tolerance the render path uses for a layer
configured with `simplify` and a tile at `zoom`: `Layer.__init__` runs
`float(simplify)` (layer.py line 102) and `Provider.render_tile`
multiplies the result by the per-zoom table entry (server.py line
356). -/
def layer_tolerance (piV : ℚ) (simplify : SimplifyArg) (zoom : Nat) : Except String ℚ := do
  let s ← pyFloat simplify
  render_tile_tolerance piV s zoom

end TileGen

/-- C4 (counterexample): with the mapping `{0:50, 4:25}` and zoom 2, the
code does not produce tolerance 50 — `float(simplify)` raises TypeError
on a mapping, so the layer cannot even be constructed.  (`piV` is the
64-bit float value of `math.pi`.) -/
theorem C4_tolerance_mapping_counterexample :
    TileGen.layer_tolerance (884279719003555 / 281474976710656)
      (TileGen.SimplifyArg.mapping [(0, 50), (4, 25)]) 2 ≠ Except.ok 50 := by
  intro h
  simp [TileGen.layer_tolerance, TileGen.pyFloat, Bind.bind, Except.bind] at h

/-- C4 (amended): the zoom-to-tolerance mapping form of `simplify` is
unsupported — `Layer.__init__` raises TypeError on any mapping (so no
tolerance is computed at any zoom, and the empty mapping is equally
rejected rather than yielding 0) — while a scalar `simplify` yields
`simplify * (2*pi*6378137 / 2^(zoom+8))` for every zoom ≤ 21. -/
theorem C4_tolerance_mapping_unsupported (piV s : ℚ) (m : List (Nat × ℚ)) (zoom : Nat) :
    TileGen.layer_tolerance piV (TileGen.SimplifyArg.mapping m) zoom =
      Except.error "TypeError: float() argument must be a string or a number" ∧
    (zoom ≤ 21 →
      TileGen.layer_tolerance piV (TileGen.SimplifyArg.scalar s) zoom =
        Except.ok (s * (2 * piV * 6378137 / 2 ^ (zoom + 8)))) := by
  refine ⟨rfl, fun h => ?_⟩
  have hz : zoom < 22 := by omega
  show TileGen.render_tile_tolerance piV s zoom = _
  simp only [TileGen.render_tile_tolerance, TileGen.tolerances, TileGen.pyIndex,
    List.getElem?_map, List.getElem?_range hz, Option.map_some', Except.map]
  congr 1
  ring

/-- Witness for C4 (amended) with the empty mapping and with scalar 1 at
zoom 0. -/
theorem C4_tolerance_mapping_unsupported_witness :
    TileGen.layer_tolerance 3 (TileGen.SimplifyArg.mapping []) 0 =
      Except.error "TypeError: float() argument must be a string or a number" ∧
    TileGen.layer_tolerance 3 (TileGen.SimplifyArg.scalar 1) 0 =
      Except.ok (1 * (2 * 3 * 6378137 / 2 ^ (0 + 8))) :=
  ⟨(C4_tolerance_mapping_unsupported 3 1 [] 0).1,
    (C4_tolerance_mapping_unsupported 3 1 [] 0).2 (by norm_num)⟩

namespace TileGen

/-! ### Feature reading (`get_features`)

src/tile_gen/vectiles/server.py lines 52-80.  A database row from the
RealDictCursor is an association list from column name to nullable
value; shapely (`loads`, `dumps`, `shape.type`) is an external library
and is passed as function parameters; shapes are modelled opaquely as
strings.  The two `assert` statements become error values. -/

/-- A feature accumulated by `get_features`: WKB bytes, properties, and
feature id (nullable, as in SQL). -/
structure Feature where
  wkb : String
  props : List (String × Option String)
  id : Option String
  deriving DecidableEq, Repr

/-- A database row: column name to nullable value. -/
abbrev Row : Type := List (String × Option String)

/-- A per-feature transform function `(shape, props, id) ↦ (shape,
props, id)` (shapes modelled as strings). -/
abbrev TransformFn : Type :=
  String × List (String × Option String) × Option String →
    String × List (String × Option String) × Option String

/-- Python `k in row` / `row[k]` on a dict row. -/
def lookupKey (row : Row) (k : String) : Option (Option String) :=
  (row.find? (fun kv => kv.1 = k)).map (fun kv => kv.2)

/-- The key-removal effect of `row.pop(k)` (dict keys are unique). -/
def removeKey (row : Row) (k : String) : Row :=
  row.filter (fun kv => kv.1 ≠ k)

/-- Processing of a single row in the loop of `get_features`
(server.py lines 57-75): assert both special columns, pop them, decode
the shape, drop the feature if its type is filtered out, build
properties from the remaining non-null columns, and apply the optional
transform (re-encoding its shape).  In Python 2 `bytes(None)` is the
string `"None"`, so a NULL geometry value flows into `loads`. -/
def get_features_row (loads dumps shape_type : String → String)
    (geometry_types : Option (List String)) (transform_fn : Option TransformFn)
    (row : Row) : Except String (Option Feature) :=
  match lookupKey row "__geometry__" with
  | none => Except.error "AssertionError: Missing __geometry__ in feature result"
  | some gv =>
    match lookupKey row "__id__" with
    | none => Except.error "AssertionError: Missing __id__ in feature result"
    | some idv =>
      let rest := removeKey (removeKey row "__geometry__") "__id__"
      let wkb := match gv with | some v => v | none => "None"
      let shape := loads wkb
      let skip : Bool :=
        match geometry_types with
        | some gts => decide (shape_type shape ∉ gts)
        | none => false
      if skip then Except.ok none
      else
        let props := rest.filter (fun kv => kv.2 ≠ none)
        match transform_fn with
        | some f =>
          let r := f (shape, props, idv)
          Except.ok (some ⟨dumps r.1, r.2.1, r.2.2⟩)
        | none => Except.ok (some ⟨wkb, props, idv⟩)

/-- The row loop of `get_features`: features in row order, first
assertion failure aborts the read. -/
def get_features_list (loads dumps shape_type : String → String)
    (geometry_types : Option (List String)) (transform_fn : Option TransformFn) :
    List Row → Except String (List Feature)
  | [] => Except.ok []
  | row :: rest =>
    match get_features_row loads dumps shape_type geometry_types transform_fn row with
    | Except.error e => Except.error e
    | Except.ok none => get_features_list loads dumps shape_type geometry_types transform_fn rest
    | Except.ok (some f) =>
      (get_features_list loads dumps shape_type geometry_types transform_fn rest).map
        (fun fs => f :: fs)

/-- `get_features` (server.py lines 52-80): run the row loop, then the
optional sort. -/
def get_features (loads dumps shape_type : String → String)
    (geometry_types : Option (List String)) (transform_fn : Option TransformFn)
    (sort_fn : Option (List Feature → List Feature)) (rows : List Row) :
    Except String (List Feature) :=
  (get_features_list loads dumps shape_type geometry_types transform_fn rows).map
    (fun features =>
      match sort_fn with
      | some f => f features
      | none => features)

end TileGen

namespace TileGen

/-- Without a transform, a feature produced from a row carries only the
row's non-null columns as properties. -/
theorem get_features_row_null_free (loads dumps st : String → String)
    (gt : Option (List String)) (row : Row) (f : Feature)
    (h : get_features_row loads dumps st gt none row = Except.ok (some f)) :
    ∀ kv ∈ f.props, kv.2 ≠ none := by
  unfold get_features_row at h
  cases hg : lookupKey row "__geometry__" with
  | none => rw [hg] at h; simp at h
  | some gv =>
    rw [hg] at h
    cases hi : lookupKey row "__id__" with
    | none => rw [hi] at h; simp at h
    | some idv =>
      rw [hi] at h
      dsimp only at h
      split at h
      · simp at h
      · simp only [Except.ok.injEq, Option.some.injEq] at h
        subst h
        intro kv hkv
        have := List.mem_filter.mp hkv
        simpa using this.2

/-- A row with both special columns present never aborts the read. -/
theorem get_features_row_ok_of_keys (loads dumps st : String → String)
    (gt : Option (List String)) (tf : Option TransformFn) (row : Row)
    (hgeom : lookupKey row "__geometry__" ≠ none) (hid : lookupKey row "__id__" ≠ none) :
    ∃ o, get_features_row loads dumps st gt tf row = Except.ok o := by
  unfold get_features_row
  cases hg : lookupKey row "__geometry__" with
  | none => exact absurd hg hgeom
  | some gv =>
    cases hi : lookupKey row "__id__" with
    | none => exact absurd hi hid
    | some idv =>
      dsimp only
      split
      · exact ⟨none, rfl⟩
      · cases tf with
        | some f => exact ⟨_, rfl⟩
        | none => exact ⟨_, rfl⟩

/-- Null-property elision for the row loop when no transform is
configured. -/
theorem get_features_list_null_free (loads dumps st : String → String)
    (gt : Option (List String)) :
    ∀ (rows : List Row) (fs : List Feature),
      get_features_list loads dumps st gt none rows = Except.ok fs →
      ∀ f ∈ fs, ∀ kv ∈ f.props, kv.2 ≠ none := by
  intro rows
  induction rows with
  | nil =>
    intro fs h f hf
    simp only [get_features_list, Except.ok.injEq] at h
    subst h
    simp at hf
  | cons row rest ih =>
    intro fs h f hf kv hkv
    unfold get_features_list at h
    cases hr : get_features_row loads dumps st gt none row with
    | error e => rw [hr] at h; simp at h
    | ok o =>
      rw [hr] at h
      cases o with
      | none => exact ih fs h f hf kv hkv
      | some f0 =>
        cases hrest : get_features_list loads dumps st gt none rest with
        | error e => rw [hrest] at h; simp [Except.map] at h
        | ok fs' =>
          rw [hrest] at h
          simp only [Except.map, Except.ok.injEq] at h
          subst h
          rcases List.mem_cons.mp hf with hf0 | hmem
          · subst hf0
            exact get_features_row_null_free loads dumps st gt row f hr kv hkv
          · exact ih fs' hrest f hmem kv hkv

end TileGen

/-- C7 (counterexample): a transform function may return properties with
null values, and they are not re-filtered — the returned feature list
then contains a null property value. -/
theorem C7_null_property_counterexample :
    ¬ (∀ f ∈ TileGen.okD
          (TileGen.get_features (fun s => s) (fun s => s) (fun _ => "Polygon") none
            (some (fun _ => ("GEOM", [("a", (none : Option String))], some "7"))) none
            [[("__geometry__", some "GEOM"), ("__id__", some "7")]]) [],
        ∀ kv ∈ f.props, kv.2 ≠ none) := by
  intro h
  exact h ⟨"GEOM", [("a", none)], some "7"⟩ (by decide) ("a", none) (by decide) rfl

/-- C7 (amended): when the layer has no transform function (and no
sort), every feature returned by `get_features` has no null property
value; a configured transform's output properties are returned as-is,
without re-filtering nulls. -/
theorem C7_null_property_elision (loads dumps shape_type : String → String)
    (geometry_types : Option (List String)) (rows : List TileGen.Row)
    (fs : List TileGen.Feature)
    (h : TileGen.get_features loads dumps shape_type geometry_types none none rows =
      Except.ok fs) :
    ∀ f ∈ fs, ∀ kv ∈ f.props, kv.2 ≠ none := by
  unfold TileGen.get_features at h
  cases hl : TileGen.get_features_list loads dumps shape_type geometry_types none rows with
  | error e => rw [hl] at h; simp [Except.map] at h
  | ok fs' =>
    rw [hl] at h
    simp only [Except.map, Except.ok.injEq] at h
    subst h
    exact TileGen.get_features_list_null_free loads dumps shape_type geometry_types rows
      fs' hl

/-- Witness for C7 (amended) on a concrete row with a null and a
non-null column: the read succeeds with the null column elided. -/
theorem C7_null_property_elision_witness :
    TileGen.get_features (fun s => s) (fun s => s) (fun _ => "Polygon") none none none
      [[("__geometry__", some "G"), ("__id__", some "1"), ("name", some "x"),
        ("empty_col", none)]] =
      Except.ok [⟨"G", [("name", some "x")], some "1"⟩] ∧
    (("name", some "x") : String × Option String).2 ≠ none :=
  ⟨by rfl,
    C7_null_property_elision (fun s => s) (fun s => s) (fun _ => "Polygon") none
      [[("__geometry__", some "G"), ("__id__", some "1"), ("name", some "x"),
        ("empty_col", none)]]
      [⟨"G", [("name", some "x")], some "1"⟩] (by rfl)
      ⟨"G", [("name", some "x")], some "1"⟩ (by decide) ("name", some "x") (by decide)⟩

namespace TileGen

/-- The row loop fails with the `__id__` assertion when every row has a
geometry column and some row lacks `__id__`. -/
theorem get_features_list_missing_id (loads dumps st : String → String)
    (gt : Option (List String)) (tf : Option TransformFn) :
    ∀ rows : List Row,
      (∀ r ∈ rows, lookupKey r "__geometry__" ≠ none) →
      (∃ r ∈ rows, lookupKey r "__id__" = none) →
      get_features_list loads dumps st gt tf rows =
        Except.error "AssertionError: Missing __id__ in feature result" := by
  intro rows
  induction rows with
  | nil => intro _ hex; simp at hex
  | cons row rest ih =>
    intro hg hex
    unfold get_features_list
    by_cases hrow : lookupKey row "__id__" = none
    · have hgeom := hg row (List.mem_cons_self row rest)
      have hres : get_features_row loads dumps st gt tf row =
          Except.error "AssertionError: Missing __id__ in feature result" := by
        unfold get_features_row
        cases hgv : lookupKey row "__geometry__" with
        | none => exact absurd hgv hgeom
        | some gv => rw [hrow]
      rw [hres]
    · have hex' : ∃ r ∈ rest, lookupKey r "__id__" = none := by
        rcases hex with ⟨r, hr, hnone⟩
        rcases List.mem_cons.mp hr with rfl | hmem
        · exact absurd hnone hrow
        · exact ⟨r, hmem, hnone⟩
      have hg' : ∀ r ∈ rest, lookupKey r "__geometry__" ≠ none :=
        fun r hr => hg r (List.mem_cons_of_mem row hr)
      have hrest := ih hg' hex'
      obtain ⟨o, ho⟩ := get_features_row_ok_of_keys loads dumps st gt tf row
        (hg row (List.mem_cons_self row rest)) hrow
      rw [ho]
      cases o with
      | none => exact hrest
      | some f => rw [hrest]; rfl

end TileGen

/-- C9: `get_features` requires both `__geometry__` and `__id__` in
every fetched row — a row lacking only `__id__` makes the entire read
fail with the `__id__` assertion error (no id is ever synthesized by the
reader). -/
theorem C9_missing_id_fails (loads dumps shape_type : String → String)
    (geometry_types : Option (List String)) (transform_fn : Option TileGen.TransformFn)
    (sort_fn : Option (List TileGen.Feature → List TileGen.Feature)) (rows : List TileGen.Row)
    (hgeom : ∀ r ∈ rows, TileGen.lookupKey r "__geometry__" ≠ none)
    (hid : ∃ r ∈ rows, TileGen.lookupKey r "__id__" = none) :
    TileGen.get_features loads dumps shape_type geometry_types transform_fn sort_fn rows =
      Except.error "AssertionError: Missing __id__ in feature result" := by
  unfold TileGen.get_features
  rw [TileGen.get_features_list_missing_id loads dumps shape_type geometry_types transform_fn
    rows hgeom hid]
  rfl

/-- Witness for C9: a single row with `__geometry__` but no `__id__`
aborts the read with the `__id__` assertion error. -/
theorem C9_missing_id_fails_witness :
    TileGen.get_features (fun s => s) (fun s => s) (fun _ => "Polygon") none none none
      [[("__geometry__", some "G")]] =
      Except.error "AssertionError: Missing __id__ in feature result" :=
  C9_missing_id_fails (fun s => s) (fun s => s) (fun _ => "Polygon") none none none
    [[("__geometry__", some "G")]] (by decide) (by decide)

namespace TileGen

/-! ### Disk cache (src/tile_gen/caches.py)

The filesystem is modelled as a map from path to entry; gzip is
modelled as a tagged wrapper (an opaque codec), so that
`gzip-write` then `gzip-read` returns the original body;
`mkstemp`-write-`rename` collapses to one atomic map update.  `dirs` is
one of the three validated modes (caches.py raises on anything else);
the `gzip` configuration list holds lowercased extensions as
`Disk.__init__` normalizes it. -/

/-- Tile coordinate (ModestMaps `Coordinate`: row = y, column = x,
zoom = z). -/
structure Coord where
  row : Nat
  column : Nat
  zoom : Nat
  deriving DecidableEq, Repr

/-- The validated `dirs` modes of the Disk cache. -/
inductive Dirs : Type
  | safe : Dirs
  | portable : Dirs
  | quadtile : Dirs
  deriving DecidableEq, Repr

/-- Python `s.lower()` (ASCII as used here). -/
def pyLower (s : String) : String := String.mk (s.data.map Char.toLower)

/-- `Disk._is_compressed` (caches.py lines 167-168). -/
def is_compressed (gzipList : List String) (format : String) : Bool :=
  pyLower format ∈ gzipList

/-- The filename extension of a cache entry: lowercased format plus
`.gz` when compressed (caches.py lines 175-176). -/
def cacheExt (gzipList : List String) (format : String) : String :=
  let e := pyLower format
  if is_compressed gzipList format then e ++ ".gz" else e

/-- Python `'%06d' % n`. -/
def pad6 (n : Nat) : String := padZeros 6 (toString n)

/-- Python `bin(n)`: `0b` prefix plus binary digits. -/
def pyBin (n : Nat) : String := String.mk ('0' :: 'b' :: Nat.toDigits 2 n)

/-- Python `s[-n:]` for `n ≥ 1`: the last `n` characters (the whole
string when `n` exceeds the length). -/
def takeLast (s : String) (n : Nat) : String :=
  String.mk (s.data.drop (s.data.length - n))

/-- One base-4 digit of the quadkey: `str(int(y + x, 2))` on a pair of
characters (caches.py line 202).  `int(_, 2)` raises ValueError on a
character that is not a binary digit — which happens when the slice of
`bin(2**31 + n)` reaches into the `0b` prefix (zoom ≥ 32). -/
def quadDigit (x y : Char) : Except String Char :=
  if (x = '0' ∨ x = '1') ∧ (y = '0' ∨ y = '1') then
    Except.ok (Char.ofNat (48 + 2 * (if y = '1' then 1 else 0) + (if x = '1' then 1 else 0)))
  else Except.error "ValueError: invalid literal for int() with base 2"

/-- The digit loop of the quadtile join: first invalid pair raises. -/
def quadDigits : List (Char × Char) → Except String (List Char)
  | [] => Except.ok []
  | p :: rest =>
    match quadDigit p.1 p.2 with
    | Except.error e => Except.error e
    | Except.ok c => (quadDigits rest).map (fun cs => c :: cs)

/-- The quadtile directory string of `Disk._filepath` (caches.py lines
193-202): interleave the low `zoom+1` bits of column and row, after
padding both through `bin(2^31 + n)`. -/
def quadkey (zoom x y : Nat) : Except String String :=
  let length := 1 + zoom
  let xs := takeLast (pyBin (2 ^ 31 + x)) length
  let ys := takeLast (pyBin (2 ^ 31 + y)) length
  (quadDigits (xs.data.zip ys.data)).map String.mk

/-- Python `[dirpath[i:i+3] for i in range(0, len(dirpath), 3)]`. -/
def chunk3 : List Char → List (List Char)
  | [] => []
  | [a] => [[a]]
  | [a, b] => [[a, b]]
  | a :: b :: c :: rest => [a, b, c] :: chunk3 rest

/-- Split a list into its initial segment and last element
(`parts[:-1]` and `parts[-1]`). -/
def initLast : List α → Option (List α × α)
  | [] => none
  | [a] => some ([], a)
  | a :: b :: rest => (initLast (b :: rest)).map (fun p => (a :: p.1, p.2))

/-- `Disk._filepath` (caches.py lines 170-212): the cache-relative path
of a tile for each `dirs` mode (`os.sep` is `/`). -/
def disk_filepath (dirs : Dirs) (gzipList : List String) (layer : String) (coord : Coord)
    (format : String) : Except String String :=
  let e := cacheExt gzipList format
  let z := toString coord.zoom
  match dirs with
  | Dirs.safe =>
    let x := (pad6 coord.column).data
    let y := (pad6 coord.row).data
    Except.ok (join "/" [layer, z, String.mk (x.take 3), String.mk (x.drop 3),
      String.mk (y.take 3), String.mk (y.drop 3) ++ "." ++ e])
  | Dirs.portable =>
    Except.ok (join "/" [layer, z, toString coord.column,
      toString coord.row ++ "." ++ e])
  | Dirs.quadtile =>
    match quadkey coord.zoom coord.column coord.row with
    | Except.error err => Except.error err
    | Except.ok dirpath =>
      let parts := chunk3 dirpath.data
      match initLast parts with
      | none => Except.error "IndexError: list index out of range"
      | some (ini, last) =>
        Except.ok (join "/" ([layer] ++ ini.map String.mk ++ [String.mk last ++ "." ++ e]))

/-- `Disk._fullpath`: `os.path.join(self.cachepath, filepath)`. -/
def disk_fullpath (cachepath : String) (dirs : Dirs) (gzipList : List String)
    (layer : String) (coord : Coord) (format : String) : Except String String :=
  (disk_filepath dirs gzipList layer coord format).map (fun p => cachepath ++ "/" ++ p)

/-- The raw byte stream of the gzip encoding of `body`: an opaque
injective encoding marked with the gzip magic header, so that a plain
`open().read()` of a compressed file yields bytes distinct from the
body. -/
def gzipBytes (body : String) : String := "\x1f\x8b" ++ body

/-- A stored cache file: raw bytes, or the gzip encoding of a body. -/
inductive Stored : Type
  | raw (body : String) : Stored
  | gz (body : String) : Stored
  deriving DecidableEq

/-- A cache file with its modification time. -/
structure Entry where
  content : Stored
  mtime : Nat
  deriving DecidableEq

/-- The filesystem: path to optional entry. -/
abbrev FS : Type := String → Option Entry

/-- Point update of the filesystem. -/
def fsUpdate (fs : FS) (p : String) (v : Option Entry) : FS :=
  fun q => if q = p then v else fs q

/-- The staleness check of `Disk.read` (caches.py line 293):
`layer.cache_lifespan and age > layer.cache_lifespan` — `None` and `0`
are falsy. -/
def lifespanExpired (lifespan : Option Nat) (age : Nat) : Bool :=
  match lifespan with
  | none => false
  | some l => if l = 0 then false else decide (age > l)

/-- `Disk.save` (caches.py lines 303-337): write the (possibly
gzip-compressed) body to a temporary file and atomically rename it over
the destination, stamping the current time. -/
def disk_save (cachepath : String) (dirs : Dirs) (gzipList : List String) (fs : FS)
    (now : Nat) (body layer : String) (coord : Coord) (format : String) :
    Except String FS :=
  (disk_fullpath cachepath dirs gzipList layer coord format).map (fun path =>
    let content := if is_compressed gzipList format then Stored.gz body else Stored.raw body
    fsUpdate fs path (some ⟨content, now⟩))

/-- `Disk.read` (caches.py lines 283-301): absent file reads as `none`;
a stale entry reads as `none`; a compressed format is read through
gzip (raising on a non-gzip file), otherwise raw. -/
def disk_read (cachepath : String) (dirs : Dirs) (gzipList : List String)
    (lifespan : Option Nat) (fs : FS) (now : Nat) (layer : String) (coord : Coord)
    (format : String) : Except String (Option String) :=
  match disk_fullpath cachepath dirs gzipList layer coord format with
  | Except.error e => Except.error e
  | Except.ok path =>
    match fs path with
    | none => Except.ok none
    | some entry =>
      if lifespanExpired lifespan (now - entry.mtime) then Except.ok none
      else if is_compressed gzipList format then
        match entry.content with
        | Stored.gz b => Except.ok (some b)
        | Stored.raw _ => Except.error "IOError: Not a gzipped file"
      else
        match entry.content with
        | Stored.raw b => Except.ok (some b)
        | Stored.gz b => Except.ok (some (gzipBytes b))

/-- `Disk.remove` (caches.py lines 271-281): unlink the file; the
ENOENT error of a missing file is swallowed. -/
def disk_remove (cachepath : String) (dirs : Dirs) (gzipList : List String) (fs : FS)
    (layer : String) (coord : Coord) (format : String) : Except String FS :=
  (disk_fullpath cachepath dirs gzipList layer coord format).map (fun path =>
    match fs path with
    | none => fs
    | some _ => fsUpdate fs path none)

end TileGen

namespace TileGen

/-- `chunk3` of a nonempty list is nonempty. -/
theorem chunk3_ne_nil : ∀ l : List Char, l ≠ [] → chunk3 l ≠ []
  | [], h => absurd rfl h
  | [_], _ => by simp [chunk3]
  | [_, _], _ => by simp [chunk3]
  | _ :: _ :: _ :: _, _ => by simp [chunk3]

/-- `initLast` succeeds on a nonempty list. -/
theorem initLast_isSome : ∀ l : List α, l ≠ [] → ∃ pr, initLast l = some pr
  | [], h => absurd rfl h
  | [a], _ => ⟨([], a), rfl⟩
  | a :: b :: rest, _ => by
    obtain ⟨pr, hpr⟩ := initLast_isSome (b :: rest) (by simp)
    exact ⟨(a :: pr.1, pr.2), by simp [initLast, hpr]⟩

end TileGen

namespace TileGen

/-- Every character that `Nat.toDigitsCore` emits in base 2 is a binary
digit (given that the accumulator holds only binary digits). -/
theorem toDigitsCore_two_chars :
    ∀ (fuel n : Nat) (ds : List Char), (∀ c ∈ ds, c = '0' ∨ c = '1') →
      ∀ c ∈ Nat.toDigitsCore 2 fuel n ds, c = '0' ∨ c = '1' := by
  intro fuel
  induction fuel with
  | zero =>
    intro n ds hds c hc
    exact hds c hc
  | succ fuel ih =>
    intro n ds hds c hc
    have hd : Nat.digitChar (n % 2) = '0' ∨ Nat.digitChar (n % 2) = '1' := by
      rcases Nat.mod_two_eq_zero_or_one n with h | h <;> rw [h]
      · left; rfl
      · right; rfl
    unfold Nat.toDigitsCore at hc
    dsimp only at hc
    split at hc
    · rcases List.mem_cons.mp hc with rfl | hmem
      · exact hd
      · exact hds c hmem
    · refine ih (n / 2) _ ?_ c hc
      intro c' hc'
      rcases List.mem_cons.mp hc' with rfl | hm
      · exact hd
      · exact hds _ hm

/-- `Nat.toDigitsCore` in base 2 emits at least `k+1` digits for a
number of at least `2^k` (with enough fuel). -/
theorem toDigitsCore_two_length :
    ∀ (fuel n k : Nat) (ds : List Char), 2 ^ k ≤ n → n < fuel →
      k + 1 + ds.length ≤ (Nat.toDigitsCore 2 fuel n ds).length := by
  intro fuel
  induction fuel with
  | zero => intro n k ds h1 h2; omega
  | succ fuel ih =>
    intro n k ds h1 h2
    have hn : 0 < n := lt_of_lt_of_le (Nat.pos_pow_of_pos k (by norm_num)) h1
    unfold Nat.toDigitsCore
    dsimp only
    split
    · rename_i hdiv
      have hk : k = 0 := by
        by_contra hk0
        have : 2 ^ 1 ≤ 2 ^ k := Nat.pow_le_pow_right (by norm_num) (by omega)
        omega
      subst hk
      simp only [List.length_cons]
      omega
    · rename_i hdiv
      have hn2 : 2 ≤ n := by omega
      cases k with
      | zero =>
        have := ih (n / 2) 0 (Nat.digitChar (n % 2) :: ds) (by omega) (by omega)
        simp only [List.length_cons] at this
        omega
      | succ k =>
        have hdk : 2 ^ k ≤ n / 2 := by
          rw [Nat.le_div_iff_mul_le (by norm_num)]
          calc 2 ^ k * 2 = 2 ^ (k + 1) := (pow_succ 2 k).symm
            _ ≤ n := h1
        have := ih (n / 2) k (Nat.digitChar (n % 2) :: ds) hdk (by omega)
        simp only [List.length_cons] at this
        omega

/-- `Nat.toDigits 2 n` has at least 32 digits once `2^31 ≤ n`. -/
theorem toDigits_two_length_ge (n : Nat) (h : 2 ^ 31 ≤ n) :
    32 ≤ (Nat.toDigits 2 n).length := by
  have := toDigitsCore_two_length (n + 1) n 31 [] h (by omega)
  simpa [Nat.toDigits] using this

/-- Characters of a right slice of `bin(n)` that stays inside the digit
part are binary digits. -/
theorem pyBin_slice_binary (n m : Nat) (hn : 2 ^ 31 ≤ n) (hm : m ≤ 32) :
    ∀ c ∈ (pyBin n).data.drop ((pyBin n).data.length - m), c = '0' ∨ c = '1' := by
  intro c hc
  have hlen := toDigits_two_length_ge n hn
  have hdata : (pyBin n).data = '0' :: 'b' :: Nat.toDigits 2 n := rfl
  rw [hdata] at hc
  have hk : ('0' :: 'b' :: Nat.toDigits 2 n).length - m =
      ((Nat.toDigits 2 n).length + 2 - m - 2) + 1 + 1 := by
    simp only [List.length_cons]
    omega
  rw [hk, List.drop_succ_cons, List.drop_succ_cons] at hc
  exact toDigitsCore_two_chars (n + 1) n [] (by simp) c
    (List.drop_subset _ _ hc)

/-- `quadDigits` succeeds on pairs of binary digits, producing one
quadkey digit per pair. -/
theorem quadDigits_ok :
    ∀ pairs : List (Char × Char),
      (∀ p ∈ pairs, (p.1 = '0' ∨ p.1 = '1') ∧ (p.2 = '0' ∨ p.2 = '1')) →
      ∃ cs, quadDigits pairs = Except.ok cs ∧ cs.length = pairs.length := by
  intro pairs
  induction pairs with
  | nil => exact fun _ => ⟨[], rfl, rfl⟩
  | cons p rest ih =>
    intro hp
    obtain ⟨cs, hcs, hlen⟩ := ih (fun q hq => hp q (List.mem_cons_of_mem p hq))
    have hd := hp p (List.mem_cons_self p rest)
    refine ⟨Char.ofNat (48 + 2 * (if p.2 = '1' then 1 else 0) +
        (if p.1 = '1' then 1 else 0)) :: cs, ?_, by simp [hlen]⟩
    unfold quadDigits quadDigit
    rw [if_pos hd]
    dsimp only
    rw [hcs]
    rfl

/-- For zooms up to 31 the slices never reach the `0b` prefix, so the
quadkey computes and is nonempty. -/
theorem quadkey_ok (z x y : Nat) (hz : z ≤ 31) :
    ∃ s, quadkey z x y = Except.ok s ∧ s.data ≠ [] := by
  have hx : ∀ c ∈ (takeLast (pyBin (2 ^ 31 + x)) (1 + z)).data, c = '0' ∨ c = '1' :=
    pyBin_slice_binary (2 ^ 31 + x) (1 + z) (by omega) (by omega)
  have hy : ∀ c ∈ (takeLast (pyBin (2 ^ 31 + y)) (1 + z)).data, c = '0' ∨ c = '1' :=
    pyBin_slice_binary (2 ^ 31 + y) (1 + z) (by omega) (by omega)
  have hne : ∀ n : Nat, 2 ^ 31 ≤ n → (takeLast (pyBin n) (1 + z)).data ≠ [] := by
    intro n hn h
    have hlen : (pyBin n).data.length = (Nat.toDigits 2 n).length + 2 := by
      show ('0' :: 'b' :: Nat.toDigits 2 n).length = _
      simp
    have hd := toDigits_two_length_ge n hn
    rw [show (takeLast (pyBin n) (1 + z)).data =
      (pyBin n).data.drop ((pyBin n).data.length - (1 + z)) from rfl,
      List.drop_eq_nil_iff] at h
    omega
  obtain ⟨cs, hcs, hlen⟩ := quadDigits_ok
    ((takeLast (pyBin (2 ^ 31 + x)) (1 + z)).data.zip
      (takeLast (pyBin (2 ^ 31 + y)) (1 + z)).data)
    (fun p hp => ⟨hx p.1 (List.of_mem_zip hp).1, hy p.2 (List.of_mem_zip hp).2⟩)
  refine ⟨String.mk cs, ?_, ?_⟩
  · unfold quadkey
    dsimp only
    rw [hcs]
    rfl
  · show cs ≠ []
    intro hnil
    rw [hnil] at hlen
    simp only [List.length_nil] at hlen
    have hz0 := hlen.symm
    rw [List.length_zip] at hz0
    rcases Nat.min_eq_zero_iff.mp hz0 with h0 | h0
    · exact hne (2 ^ 31 + x) (by omega) (List.length_eq_zero.mp h0)
    · exact hne (2 ^ 31 + y) (by omega) (List.length_eq_zero.mp h0)

/-- `Disk._filepath` succeeds on `safe` and `portable` always, and on
`quadtile` whenever the zoom keeps the bit slice inside the binary
digits (zoom ≤ 31). -/
theorem disk_filepath_ok (dirs : Dirs) (gzipList : List String) (layer : String)
    (coord : Coord) (format : String) (hz : dirs = Dirs.quadtile → coord.zoom ≤ 31) :
    ∃ p, disk_filepath dirs gzipList layer coord format = Except.ok p := by
  cases dirs with
  | safe => exact ⟨_, rfl⟩
  | portable => exact ⟨_, rfl⟩
  | quadtile =>
    obtain ⟨s, hs, hne⟩ := quadkey_ok coord.zoom coord.column coord.row (hz rfl)
    obtain ⟨pr, hpr⟩ := initLast_isSome (chunk3 s.data) (chunk3_ne_nil _ hne)
    unfold disk_filepath
    dsimp only
    rw [hs]
    dsimp only
    rw [hpr]
    exact ⟨_, rfl⟩

/-- An entry written just now is never stale. -/
theorem lifespanExpired_zero (lifespan : Option Nat) : lifespanExpired lifespan 0 = false := by
  cases lifespan with
  | none => rfl
  | some l => simp [lifespanExpired]

end TileGen

/-- C5 (counterexample): at `dirs=quadtile` the path computation itself
raises for zoom ≥ 32 — the `[-length:]` slice reaches the `0b` prefix
of `bin(2**31 + n)` and `int(y+x, 2)` raises ValueError — so
`Disk.remove` of a non-existent entry errors, and `Disk.save` cannot
succeed at all, refuting the claim quantified over every coordinate. -/
theorem C5_cache_round_trip_counterexample :
    TileGen.disk_remove "/cache" TileGen.Dirs.quadtile ["txt", "text", "json", "xml"]
      (fun _ => none) "L" ⟨0, 0, 32⟩ "mvt" =
      Except.error "ValueError: invalid literal for int() with base 2" ∧
    TileGen.disk_save "/cache" TileGen.Dirs.quadtile ["txt", "text", "json", "xml"]
      (fun _ => none) 0 "BODY" "L" ⟨0, 0, 32⟩ "mvt" =
      Except.error "ValueError: invalid literal for int() with base 2" := by
  exact ⟨by rfl, by rfl⟩

/-- C5 (amended): for every body, layer, format (compressed or not) and
every coordinate whose cache path computes — always for `safe` and
`portable`, and for `quadtile` whenever zoom ≤ 31 — `Disk.read`
immediately after `Disk.save` of the same key returns the saved body;
`Disk.read` after `Disk.remove` of that key returns the absent value;
and `Disk.remove` of a non-existent entry succeeds without error.  (At
`quadtile` with zoom ≥ 32 all three operations instead raise
ValueError while computing the path.) -/
theorem C5_cache_round_trip (cachepath : String) (dirs : TileGen.Dirs)
    (gzipList : List String) (lifespan : Option Nat) (fs : TileGen.FS)
    (body layer : String) (coord : TileGen.Coord) (format : String) (now later : Nat)
    (hz : dirs = TileGen.Dirs.quadtile → coord.zoom ≤ 31) :
    ∃ fs1 fs2,
      TileGen.disk_save cachepath dirs gzipList fs now body layer coord format =
        Except.ok fs1 ∧
      TileGen.disk_read cachepath dirs gzipList lifespan fs1 now layer coord format =
        Except.ok (some body) ∧
      TileGen.disk_remove cachepath dirs gzipList fs1 layer coord format = Except.ok fs2 ∧
      TileGen.disk_read cachepath dirs gzipList lifespan fs2 later layer coord format =
        Except.ok none ∧
      TileGen.disk_remove cachepath dirs gzipList (fun _ => none) layer coord format =
        Except.ok (fun _ => none) := by
  obtain ⟨p, hp⟩ := TileGen.disk_filepath_ok dirs gzipList layer coord format hz
  have hfull : TileGen.disk_fullpath cachepath dirs gzipList layer coord format =
      Except.ok (cachepath ++ "/" ++ p) := by
    unfold TileGen.disk_fullpath
    rw [hp]
    rfl
  refine ⟨TileGen.fsUpdate fs (cachepath ++ "/" ++ p)
      (some ⟨if TileGen.is_compressed gzipList format then TileGen.Stored.gz body
        else TileGen.Stored.raw body, now⟩),
    TileGen.fsUpdate (TileGen.fsUpdate fs (cachepath ++ "/" ++ p)
      (some ⟨if TileGen.is_compressed gzipList format then TileGen.Stored.gz body
        else TileGen.Stored.raw body, now⟩)) (cachepath ++ "/" ++ p) none,
    ?_, ?_, ?_, ?_, ?_⟩
  · unfold TileGen.disk_save
    rw [hfull]
    by_cases hc : TileGen.is_compressed gzipList format <;> simp [hc, Except.map]
  · unfold TileGen.disk_read
    rw [hfull]
    simp only [TileGen.fsUpdate, if_pos]
    rw [Nat.sub_self, TileGen.lifespanExpired_zero]
    by_cases hc : TileGen.is_compressed gzipList format <;> simp [hc]
  · unfold TileGen.disk_remove
    rw [hfull]
    simp [TileGen.fsUpdate, Except.map]
  · unfold TileGen.disk_read
    rw [hfull]
    simp [TileGen.fsUpdate]
  · unfold TileGen.disk_remove
    rw [hfull]
    rfl

/-- Witness for C5 (amended): a quadtile round trip at `(z=2, x=3, y=1)`
with the compressed `txt` format. -/
theorem C5_cache_round_trip_witness :
    ∃ fs1 fs2,
      TileGen.disk_save "/cache" TileGen.Dirs.quadtile ["txt", "text", "json", "xml"]
        (fun _ => none) 5 "BODY" "L" ⟨1, 3, 2⟩ "txt" = Except.ok fs1 ∧
      TileGen.disk_read "/cache" TileGen.Dirs.quadtile ["txt", "text", "json", "xml"]
        (some 9) fs1 5 "L" ⟨1, 3, 2⟩ "txt" = Except.ok (some "BODY") ∧
      TileGen.disk_remove "/cache" TileGen.Dirs.quadtile ["txt", "text", "json", "xml"]
        fs1 "L" ⟨1, 3, 2⟩ "txt" = Except.ok fs2 ∧
      TileGen.disk_read "/cache" TileGen.Dirs.quadtile ["txt", "text", "json", "xml"]
        (some 9) fs2 7 "L" ⟨1, 3, 2⟩ "txt" = Except.ok none ∧
      TileGen.disk_remove "/cache" TileGen.Dirs.quadtile ["txt", "text", "json", "xml"]
        (fun _ => none) "L" ⟨1, 3, 2⟩ "txt" = Except.ok (fun _ => none) :=
  C5_cache_round_trip "/cache" TileGen.Dirs.quadtile ["txt", "text", "json", "xml"]
    (some 9) (fun _ => none) "BODY" "L" ⟨1, 3, 2⟩ "txt" 5 7 (fun _ => by decide)

/-- C8 (counterexample): the quadkey for `(z=1, x=1, y=0)` is not `"1"`
— the code always produces `zoom+1` digits, here `"01"` — so the
claimed quadkey/path triple is false. -/
theorem C8_quadtile_counterexample :
    ¬ (TileGen.quadkey 1 1 0 = Except.ok "1" ∧ TileGen.quadkey 2 3 1 = Except.ok "21" ∧
        TileGen.disk_filepath TileGen.Dirs.quadtile ["txt", "text", "json", "xml"] "L"
          ⟨1, 3, 2⟩ "mvt" = Except.ok "L/2.mvt") := by
  intro h
  have h1 := h.1
  rw [show TileGen.quadkey 1 1 0 = Except.ok "01" from rfl] at h1
  exact absurd (Except.ok.inj h1) (by decide)

/-- C8 (amended): the quadtile scheme emits `zoom+1` base-4 digits
(bits of x low, y high, interleaved): `(z=1,x=1,y=0)` gives `"01"`,
`(z=2,x=3,y=1)` gives `"013"`, and the cache path for layer `L`,
`(z=2,x=3,y=1)`, format `mvt` is `L/013.mvt` under the 3-character
grouping rule. -/
theorem C8_quadtile_paths :
    TileGen.quadkey 1 1 0 = Except.ok "01" ∧ TileGen.quadkey 2 3 1 = Except.ok "013" ∧
    TileGen.disk_filepath TileGen.Dirs.quadtile ["txt", "text", "json", "xml"] "L"
      ⟨1, 3, 2⟩ "mvt" = Except.ok "L/013.mvt" := by
  refine ⟨by rfl, by rfl, by rfl⟩

namespace TileGen

/-! ### `Layer.get_tile` (src/tile_gen/core.py lines 261-333)

The cache, the renderer and the recent-tiles table are external
effects; each fallible step is modelled by an outcome parameter: a
normal result, a `TheTileLeftANote` signal (caught by `get_tile`), a
`NoTileLeftBehind` signal (render only), or a propagated error.  The
trace records the `cache.lock` / `cache.unlock` calls with their
arguments. -/

/-- Outcome of a `cache.read` call. -/
inductive ReadOutcome : Type
  | ok (body : Option String) : ReadOutcome
  | note (content : String) : ReadOutcome
  | exc (e : String) : ReadOutcome

/-- Outcome of `self.render(coord, format)`. -/
inductive RenderOutcome : Type
  | ok (tile : String) : RenderOutcome
  | noTile (tile : String) : RenderOutcome
  | note (content : String) : RenderOutcome
  | exc (e : String) : RenderOutcome

/-- Outcome of a `cache.save` call. -/
inductive SaveOutcome : Type
  | ok : SaveOutcome
  | note (content : String) : SaveOutcome
  | exc (e : String) : SaveOutcome

/-- The external world of one `get_tile` call: the recent-tiles entry,
the two cache reads (before and after the lock), the render, and the
cache save. -/
structure TileEnv : Type where
  recent : Option String
  read1 : ReadOutcome
  read2 : ReadOutcome
  render : RenderOutcome
  save : SaveOutcome

/-- A cache-lock operation with its key, as recorded in the call
trace. -/
inductive CacheOp : Type
  | lock (c : Coord) (format : String) : CacheOp
  | unlock (c : Coord) (format : String) : CacheOp
  deriving DecidableEq

/-- `Metatile.firstCoord` (core.py lines 171-196): the upper-left
corner of the metatile containing `coord` (Python 2 `/` on ints is
floor division). -/
def metatile_firstCoord (rows columns : Nat) (c : Coord) : Coord :=
  ⟨rows * (c.row / rows), columns * (c.column / columns), c.zoom⟩

/-- Result of the body of the `try` block of `get_tile` before the
`finally`: a body, a caught `TheTileLeftANote` content, or a raised
error. -/
inductive InnerResult : Type
  | done (body : String) : InnerResult
  | noted (content : String) : InnerResult
  | raised (e : String) : InnerResult

/-- The inner `try` body of `get_tile` (core.py lines 294-322): re-read
the cache under the lock, render on a miss (catching
`NoTileLeftBehind`), and save unless suppressed. -/
def get_tile_inner (env : TileEnv) (ignore_cached suppress_cache_write write_cache : Bool) :
    InnerResult :=
  let afterRender : String → Bool → InnerResult := fun tile save0 =>
    let save := if suppress_cache_write || !write_cache then false else save0
    if save then
      match env.save with
      | SaveOutcome.ok => InnerResult.done tile
      | SaveOutcome.note c => InnerResult.noted c
      | SaveOutcome.exc e => InnerResult.raised e
    else InnerResult.done tile
  let renderPath : InnerResult :=
    match env.render with
    | RenderOutcome.ok t => afterRender t true
    | RenderOutcome.noTile t => afterRender t false
    | RenderOutcome.note c => InnerResult.noted c
    | RenderOutcome.exc e => InnerResult.raised e
  if ignore_cached then renderPath
  else
    match env.read2 with
    | ReadOutcome.ok (some b) => InnerResult.done b
    | ReadOutcome.ok none => renderPath
    | ReadOutcome.note c => InnerResult.noted c
    | ReadOutcome.exc e => InnerResult.raised e

/-- `Layer.get_tile` (core.py lines 261-333), reduced to its cache-lock
discipline: returns the response body (or the propagated error) and the
trace of lock operations.  The lock is taken only when a cache write is
possible; the `finally` releases it on every exit of the `try`. -/
def get_tile (env : TileEnv) (ignore_cached suppress_cache_write write_cache : Bool)
    (mrows mcols : Nat) (coord : Coord) (format : String) :
    Except String String × List CacheOp :=
  let body0 : Except String (Option String) :=
    if ignore_cached then Except.ok env.recent
    else
      match env.read1 with
      | ReadOutcome.ok b => Except.ok b
      | ReadOutcome.note c => Except.ok (some c)
      | ReadOutcome.exc e => Except.error e
  match body0 with
  | Except.error e => (Except.error e, [])
  | Except.ok (some b) => (Except.ok b, [])
  | Except.ok none =>
    let locked := !suppress_cache_write && write_cache
    let lockCoord := metatile_firstCoord mrows mcols coord
    let trace :=
      (if locked then [CacheOp.lock lockCoord format] else []) ++
        (if locked then [CacheOp.unlock lockCoord format] else [])
    match get_tile_inner env ignore_cached suppress_cache_write write_cache with
    | InnerResult.done b => (Except.ok b, trace)
    | InnerResult.noted c => (Except.ok c, trace)
    | InnerResult.raised e => (Except.error e, trace)

end TileGen

/-- C6: in every run of `get_tile` — cached hit, fresh render,
`NoTileLeftBehind`, `TheTileLeftANote`, or a propagated render/cache
error — `cache.lock` for a coordinate and format appears in the trace
exactly when `cache.unlock` for the same coordinate and format does. -/
theorem C6_unlock_on_every_exit (env : TileGen.TileEnv)
    (ignore_cached suppress_cache_write write_cache : Bool) (mrows mcols : Nat)
    (coord : TileGen.Coord) (format : String) (c : TileGen.Coord) (f : String) :
    (TileGen.CacheOp.lock c f ∈
        (TileGen.get_tile env ignore_cached suppress_cache_write write_cache mrows mcols
          coord format).2 ↔
      TileGen.CacheOp.unlock c f ∈
        (TileGen.get_tile env ignore_cached suppress_cache_write write_cache mrows mcols
          coord format).2) := by
  unfold TileGen.get_tile
  dsimp only
  by_cases hl : (!suppress_cache_write && write_cache) = true <;>
    repeat' split <;>
      simp_all [TileGen.CacheOp.lock.injEq, TileGen.CacheOp.unlock.injEq]
